import Mathlib

/-!
Verification of the parameter contract declared in `src/Shaders/ShaderTypes.h`
of the Film-camera repository.  The header is pure data: C structs holding the
per-effect parameter blocks of a film-emulation image pipeline, plus the
buffer/texture binding-index enums.  We embed each declaration shallowly:

* every struct is recorded as a typed field list (`List (String × CType)`),
  transcribed field by field from the header, so that structural claims
  (presence/absence of fields, field types, capacities) are decidable;
* structs whose claims need values (curves, selective color, date stamp,
  aspect scaling, grain) are additionally embedded as Lean structures with
  `float` rendered as `ℚ`, `int` as `ℤ` and `uint` as `ℕ`;
* the enums become named numeric constants.

Behavioural pieces that the repository does not ship (stage functions,
snapshot constructors) are modelled from the spec where a claim needs them;
each such definition says so in its doc comment.
-/

/-- The C/simd scalar and vector types used by fields of `ShaderTypes.h`,
with a constructor for nested struct types and fixed-size arrays. -/
inductive CType where
  | float : CType
  | int : CType
  | uint : CType
  | float2 : CType
  | float3 : CType
  | float4 : CType
  | struct : String → CType
  | array : CType → Nat → CType
deriving DecidableEq, Repr

/-- Fields of `Vertex` (ShaderTypes.h lines 14-17): 2D position and 2D
texture coordinate. -/
def Vertex.fields : List (String × CType) :=
  [("position", CType.float2), ("texCoord", CType.float2)]

/-- `BufferIndexVertices = 0` (ShaderTypes.h line 21). -/
def BufferIndexVertices : Nat := 0

/-- `BufferIndexUniforms = 1` (ShaderTypes.h line 22). -/
def BufferIndexUniforms : Nat := 1

/-- `TextureIndexInput = 0` (ShaderTypes.h line 27). -/
def TextureIndexInput : Nat := 0

/-- `TextureIndexLUT = 1` (ShaderTypes.h line 28). -/
def TextureIndexLUT : Nat := 1

/-- `TextureIndexOutput = 2` (ShaderTypes.h line 29). -/
def TextureIndexOutput : Nat := 2

/-- Fields of `SelectiveColorData` (lines 35-41). -/
def SelectiveColorData.fields : List (String × CType) :=
  [("hue", CType.float), ("range", CType.float), ("satAdj", CType.float),
   ("lumAdj", CType.float), ("hueShift", CType.float)]

/-- Fields of `LensDistortionParams` (lines 44-50). -/
def LensDistortionParams.fields : List (String × CType) :=
  [("enabled", CType.int), ("k1", CType.float), ("k2", CType.float),
   ("caStrength", CType.float), ("scale", CType.float)]

/-- Fields of `CurvePoint` (lines 53-56). -/
def CurvePoint.fields : List (String × CType) :=
  [("input", CType.float), ("output", CType.float)]

/-- `MAX_CURVE_POINTS` (line 60): capacity of each per-channel curve array. -/
def MAX_CURVE_POINTS : Nat := 8

/-- Fields of `RGBCurvesParams` (lines 62-70). -/
def RGBCurvesParams.fields : List (String × CType) :=
  [("redCurve", CType.array (CType.struct "CurvePoint") MAX_CURVE_POINTS),
   ("greenCurve", CType.array (CType.struct "CurvePoint") MAX_CURVE_POINTS),
   ("blueCurve", CType.array (CType.struct "CurvePoint") MAX_CURVE_POINTS),
   ("redPointCount", CType.int), ("greenPointCount", CType.int),
   ("bluePointCount", CType.int), ("enabled", CType.int)]

/-- Declared capacity of `ColorGradingParams.selectiveColors` (line 96):
`SelectiveColorData selectiveColors[8]`. -/
def selectiveColorCapacity : Nat := 8

/-- Fields of `ColorGradingParams` (lines 73-105). -/
def ColorGradingParams.fields : List (String × CType) :=
  [("exposure", CType.float), ("contrast", CType.float),
   ("highlights", CType.float), ("shadows", CType.float),
   ("whites", CType.float), ("blacks", CType.float),
   ("saturation", CType.float), ("vibrance", CType.float),
   ("temperature", CType.float), ("tint", CType.float),
   ("fade", CType.float), ("clarity", CType.float),
   ("shadowsHue", CType.float), ("shadowsSat", CType.float),
   ("highlightsHue", CType.float), ("highlightsSat", CType.float),
   ("splitBalance", CType.float), ("midtoneProtection", CType.float),
   ("selectiveColors",
     CType.array (CType.struct "SelectiveColorData") selectiveColorCapacity),
   ("selectiveColorCount", CType.int),
   ("lutIntensity", CType.float), ("useLUT", CType.int),
   ("rgbCurves", CType.struct "RGBCurvesParams")]

/-- Fields of `GrainParams` (lines 108-114). -/
def GrainParams.fields : List (String × CType) :=
  [("globalIntensity", CType.float), ("size", CType.float),
   ("softness", CType.float), ("channelIntensity", CType.float3),
   ("enabled", CType.int)]

/-- Fields of `BloomParams` (lines 117-124). -/
def BloomParams.fields : List (String × CType) :=
  [("intensity", CType.float), ("threshold", CType.float),
   ("radius", CType.float), ("softness", CType.float),
   ("colorTint", CType.float3), ("enabled", CType.int)]

/-- Fields of `HalationParams` (lines 127-134). -/
def HalationParams.fields : List (String × CType) :=
  [("intensity", CType.float), ("threshold", CType.float),
   ("radius", CType.float), ("softness", CType.float),
   ("color", CType.float3), ("enabled", CType.int)]

/-- Fields of `VignetteParams` (lines 137-143). -/
def VignetteParams.fields : List (String × CType) :=
  [("intensity", CType.float), ("roundness", CType.float),
   ("feather", CType.float), ("midpoint", CType.float),
   ("enabled", CType.int)]

/-- Fields of `InstantFrameParams` (lines 146-152). -/
def InstantFrameParams.fields : List (String × CType) :=
  [("borderWidths", CType.float4), ("borderColor", CType.float3),
   ("edgeFade", CType.float), ("cornerDarkening", CType.float),
   ("enabled", CType.int)]

/-- Fields of `SkinToneParams` (lines 155-161). -/
def SkinToneParams.fields : List (String × CType) :=
  [("enabled", CType.int), ("hueCenter", CType.float),
   ("hueRange", CType.float), ("satProtection", CType.float),
   ("warmthBoost", CType.float)]

/-- Fields of `ToneMappingParams` (lines 164-170). -/
def ToneMappingParams.fields : List (String × CType) :=
  [("enabled", CType.int), ("whitePoint", CType.float),
   ("shoulderStrength", CType.float), ("linearStrength", CType.float),
   ("toeStrength", CType.float)]

/-- Fields of `AspectScaleParams` (lines 174-177). -/
def AspectScaleParams.fields : List (String × CType) :=
  [("inputAspect", CType.float), ("outputAspect", CType.float)]

/-- Fields of `FlashParams` (lines 181-190). -/
def FlashParams.fields : List (String × CType) :=
  [("enabled", CType.int), ("intensity", CType.float),
   ("falloff", CType.float), ("warmth", CType.float),
   ("shadowLift", CType.float), ("centerBoost", CType.float),
   ("position", CType.float2), ("radius", CType.float)]

/-- Fields of `LightLeakParams` (lines 194-205). -/
def LightLeakParams.fields : List (String × CType) :=
  [("enabled", CType.int), ("leakType", CType.int),
   ("opacity", CType.float), ("size", CType.float),
   ("softness", CType.float), ("warmth", CType.float),
   ("saturation", CType.float), ("hueShift", CType.float),
   ("blendMode", CType.int), ("seed", CType.uint)]

/-- Fields of `DateStampParams` (lines 209-221). -/
def DateStampParams.fields : List (String × CType) :=
  [("enabled", CType.int), ("digits", CType.array CType.int 10),
   ("digitCount", CType.int), ("position", CType.int),
   ("color", CType.float3), ("opacity", CType.float),
   ("scale", CType.float), ("marginX", CType.float),
   ("marginY", CType.float), ("glowEnabled", CType.int),
   ("glowIntensity", CType.float)]

/-- Fields of `CCDBloomParams` (lines 225-248). -/
def CCDBloomParams.fields : List (String × CType) :=
  [("enabled", CType.int), ("intensity", CType.float),
   ("threshold", CType.float), ("verticalSmear", CType.float),
   ("smearLength", CType.float), ("smearFalloff", CType.float),
   ("horizontalBloom", CType.float), ("horizontalRadius", CType.float),
   ("purpleFringing", CType.float), ("fringeWidth", CType.float),
   ("warmShift", CType.float), ("imageSize", CType.float2)]

/-- Fields of `BWParams` (lines 252-281). -/
def BWParams.fields : List (String × CType) :=
  [("enabled", CType.int),
   ("redWeight", CType.float), ("greenWeight", CType.float),
   ("blueWeight", CType.float),
   ("contrast", CType.float), ("brightness", CType.float),
   ("gamma", CType.float),
   ("toningMode", CType.int), ("toningIntensity", CType.float),
   ("customColor", CType.float3),
   ("shadowHue", CType.float), ("shadowSat", CType.float),
   ("highlightHue", CType.float), ("highlightSat", CType.float),
   ("splitBalance", CType.float),
   ("grainIntensity", CType.float), ("grainSize", CType.float),
   ("grainSeed", CType.uint)]

/-- Every struct declared in `ShaderTypes.h`, in declaration order, paired
with its field list. -/
def allParamBlocks : List (String × List (String × CType)) :=
  [("Vertex", Vertex.fields),
   ("SelectiveColorData", SelectiveColorData.fields),
   ("LensDistortionParams", LensDistortionParams.fields),
   ("CurvePoint", CurvePoint.fields),
   ("RGBCurvesParams", RGBCurvesParams.fields),
   ("ColorGradingParams", ColorGradingParams.fields),
   ("GrainParams", GrainParams.fields),
   ("BloomParams", BloomParams.fields),
   ("HalationParams", HalationParams.fields),
   ("VignetteParams", VignetteParams.fields),
   ("InstantFrameParams", InstantFrameParams.fields),
   ("SkinToneParams", SkinToneParams.fields),
   ("ToneMappingParams", ToneMappingParams.fields),
   ("AspectScaleParams", AspectScaleParams.fields),
   ("FlashParams", FlashParams.fields),
   ("LightLeakParams", LightLeakParams.fields),
   ("DateStampParams", DateStampParams.fields),
   ("CCDBloomParams", CCDBloomParams.fields),
   ("BWParams", BWParams.fields)]

/-- Claim C1 as stated: the spec asserts the texture-binding contract maps
the LUT texture to index 2 (alongside input at 0 and output at 2).  The
header declares `TextureIndexLUT = 1`, refuting the LUT part of the claim. -/
theorem c1_counterexample : TextureIndexLUT = 1 ∧ TextureIndexLUT ≠ 2 := by
  decide

/-- Claim C1 (amended): a vertex carries a 2D position and a 2D texture
coordinate; the vertex buffer binds at index 0 and the uniform buffer at
index 1; and the texture bindings map the input texture to index 0, the LUT
texture to index 1, and the output target to index 2. -/
theorem c1_binding_convention :
    Vertex.fields = [("position", CType.float2), ("texCoord", CType.float2)] ∧
    BufferIndexVertices = 0 ∧ BufferIndexUniforms = 1 ∧
    TextureIndexInput = 0 ∧ TextureIndexLUT = 1 ∧ TextureIndexOutput = 2 := by
  decide

/-! ## Grain (C2) -/

/-- `GrainParams` (lines 108-114) as a value type: `float` fields as `ℚ`,
`vector_float3 channelIntensity` as a triple, `int enabled` as `ℤ`. -/
structure GrainParams where
  globalIntensity : ℚ
  size : ℚ
  softness : ℚ
  channelIntensity : ℚ × ℚ × ℚ
  enabled : ℤ
deriving DecidableEq

/-- The claim that the grain parameter block carries a seed: a field named
`seed`/`grainSeed`, or (as every seed in this header is) a `uint` field. -/
def grainCarriesSeed : Prop :=
  ∃ f ∈ GrainParams.fields,
    f.1 = "seed" ∨ f.1 = "grainSeed" ∨ f.2 = CType.uint

/-- A deterministic integer hash driving the modelled grain noise.
Modelled from the spec: the repository ships no grain shader, only the
parameter block; the spec requires grain noise to be a pure function of a
seed and the pixel position. -/
def hashNoise (seed x y : Nat) : Nat :=
  (seed * 1103515245 + x * 12345 + y * 1013904223 + 12345) % 65536

/-- Modelled from the spec: the grain stage as a pure function — the
repository ships only `GrainParams`, not the stage; per the spec a stage is
"pure with respect to its inputs", with the seed passed explicitly since
`GrainParams` itself carries none.  Disabled grain is a no-op; enabled grain
adds seed-hashed noise scaled by the global intensity. -/
def grainStage (seed : Nat) (p : GrainParams) (img : Nat → Nat → ℚ)
    (x y : Nat) : ℚ :=
  if p.enabled ≠ 0 then
    img x y + p.globalIntensity * ((hashNoise seed x y : ℚ) / 65536 - 1 / 2)
  else img x y

/-- A concrete grain parameter value used by witnesses. -/
def grainExample : GrainParams :=
  { globalIntensity := 1 / 2, size := 1, softness := 1 / 2,
    channelIntensity := (1, 1, 1), enabled := 1 }

/-- A concrete constant input image. -/
def flatHalf : Nat → Nat → ℚ := fun _ _ => 1 / 2

/-- Claim C2 as stated is false on the header: `GrainParams` (the grain
parameter block) has exactly its five declared fields and none of them is a
seed — no field named `seed` or `grainSeed` and no `uint` field at all. -/
theorem c2_counterexample :
    GrainParams.fields.length = 5 ∧ ¬ grainCarriesSeed := by
  refine ⟨by decide, ?_⟩
  unfold grainCarriesSeed
  decide

/-- Claim C2 (amended): the grain block itself carries no seed; the seeded
grain in the header is the black-and-white pipeline's grain (`grainSeed`)
and the light leak (`seed`), both `uint`.  With the seed supplied alongside
the parameters, the grain stage is a pure function: repeated renders with
equal seed, parameters and input produce bit-identical output. -/
theorem c2_grain_determinism :
    ("grainSeed", CType.uint) ∈ BWParams.fields ∧
    ("seed", CType.uint) ∈ LightLeakParams.fields ∧
    ∀ s₁ s₂ : Nat, ∀ p₁ p₂ : GrainParams, ∀ i₁ i₂ : Nat → Nat → ℚ,
      s₁ = s₂ → p₁ = p₂ → i₁ = i₂ →
      grainStage s₁ p₁ i₁ = grainStage s₂ p₂ i₂ := by
  refine ⟨by decide, by decide, ?_⟩
  intro s₁ s₂ p₁ p₂ i₁ i₂ hs hp hi
  rw [hs, hp, hi]

/-- Witness for C2 at a concrete seed, parameter block and input. -/
theorem c2_grain_determinism_witness :
    grainStage 7 grainExample flatHalf = grainStage 7 grainExample flatHalf :=
  c2_grain_determinism.2.2 7 7 grainExample grainExample flatHalf flatHalf
    rfl rfl rfl

/-! ## Bloom versus CCD bloom (C4) -/

/-- The claim that an injective, type-preserving, field-level embedding of
`BloomParams` into `CCDBloomParams` exists. -/
def BloomToCCDEmbedding : Prop :=
  ∃ f : String × CType → String × CType,
    (∀ p ∈ BloomParams.fields, f p ∈ CCDBloomParams.fields ∧ (f p).2 = p.2) ∧
    Set.InjOn f {p | p ∈ BloomParams.fields}

/-- Claim C4 as stated is false: `BloomParams.colorTint` has type
`vector_float3`, but `CCDBloomParams` has no `vector_float3` field at all
(its colour control `warmShift` is a scalar), so no type-preserving
embedding of the bloom fields exists; `CCDBloomParams` also has no
`softness` field. -/
theorem c4_counterexample :
    ("colorTint", CType.float3) ∈ BloomParams.fields ∧
    ((CCDBloomParams.fields.map Prod.fst).all fun n => decide (n ≠ "softness")) = true ∧
    ¬ BloomToCCDEmbedding := by
  refine ⟨by decide, by decide, ?_⟩
  rintro ⟨f, hf, -⟩
  have h := hf ("colorTint", CType.float3) (by decide)
  have hall : ∀ q ∈ CCDBloomParams.fields, q.2 ≠ CType.float3 := by decide
  exact hall _ h.1 h.2

/-- Claim C4 (amended): `CCDBloomParams` shares `enabled`, `intensity` and
`threshold` with `BloomParams` at identical types, offers a blur radius
(`horizontalRadius`) and a scalar warm colour shift (`warmShift`), and
additionally carries the vertical-smear length/falloff and purple-fringe
controls absent from `BloomParams`; but it is not a structural superset:
it lacks `softness` and any `vector_float3` colour tint. -/
theorem c4_ccd_bloom_relation :
    ([(("enabled" : String), CType.int), ("intensity", CType.float),
      ("threshold", CType.float)].all fun f =>
        decide (f ∈ BloomParams.fields ∧ f ∈ CCDBloomParams.fields)) = true ∧
    ("horizontalRadius", CType.float) ∈ CCDBloomParams.fields ∧
    ("warmShift", CType.float) ∈ CCDBloomParams.fields ∧
    ([(("verticalSmear" : String), CType.float), ("smearLength", CType.float),
      ("smearFalloff", CType.float), ("purpleFringing", CType.float),
      ("fringeWidth", CType.float)].all fun f =>
        decide (f ∈ CCDBloomParams.fields ∧
          f.1 ∉ BloomParams.fields.map Prod.fst)) = true ∧
    ((CCDBloomParams.fields.map Prod.fst).all fun n => decide (n ≠ "softness")) = true ∧
    (CCDBloomParams.fields.all fun q => decide (q.2 ≠ CType.float3)) = true := by
  refine ⟨?_, ?_, ?_, ?_, ?_, ?_⟩ <;> decide

/-! ## Vignette (C5) -/

/-- The five control names the header's vignette block declares. -/
def vignetteCoreNames : List String :=
  ["intensity", "roundness", "feather", "midpoint", "enabled"]

/-- The claim that the vignette block holds some control beyond the five
named ones — in particular the aspect-ratio correction the spec lists. -/
def vignetteHasExtraControl : Prop :=
  ∃ f ∈ VignetteParams.fields, f.1 ∉ vignetteCoreNames

/-- Claim C5 as stated is false: `VignetteParams` consists of exactly
intensity, roundness, feather, midpoint and enabled — there is no
aspect-ratio correction field (nor any sixth field) in the block. -/
theorem c5_counterexample :
    VignetteParams.fields.map Prod.fst = vignetteCoreNames ∧
    ¬ vignetteHasExtraControl := by
  refine ⟨by decide, ?_⟩
  unfold vignetteHasExtraControl
  decide

/-- Claim C5 (amended): the vignette parameter block consists of intensity,
corner roundness, feather width, radial midpoint and an enabled flag — and
nothing else; aspect-ratio handling lives in the separate
`AspectScaleParams` block (input and output aspect ratios). -/
theorem c5_vignette_fields :
    VignetteParams.fields =
      [("intensity", CType.float), ("roundness", CType.float),
       ("feather", CType.float), ("midpoint", CType.float),
       ("enabled", CType.int)] ∧
    AspectScaleParams.fields =
      [("inputAspect", CType.float), ("outputAspect", CType.float)] := by
  decide

/-! ## Light leak (C6) -/

/-- The four light-leak blend modes of the header's encoding comment
(line 203): `0=screen, 1=add, 2=overlay, 3=softLight`. -/
inductive LightLeakBlendMode where
  | screen : LightLeakBlendMode
  | add : LightLeakBlendMode
  | overlay : LightLeakBlendMode
  | softLight : LightLeakBlendMode
deriving DecidableEq, Repr

/-- Numeric code of a blend mode, from the comment on line 203. -/
def LightLeakBlendMode.toCode : LightLeakBlendMode → ℤ
  | .screen => 0
  | .add => 1
  | .overlay => 2
  | .softLight => 3

/-- Decode a `blendMode` int back to a blend mode; values outside the
declared codes decode to nothing. -/
def LightLeakBlendMode.ofCode (c : ℤ) : Option LightLeakBlendMode :=
  if c = 0 then some .screen
  else if c = 1 then some .add
  else if c = 2 then some .overlay
  else if c = 3 then some .softLight
  else none

/-- All blend modes, in code order. -/
def allBlendModes : List LightLeakBlendMode :=
  [.screen, .add, .overlay, .softLight]

/-- Claim C6: the light-leak block's blend mode ranges over exactly the four
modes screen, add, overlay and soft-light, encoded as 0, 1, 2, 3
respectively (each mode is listed once, codes round-trip, and codes outside
0..3 denote no mode), and the block carries a `uint` random seed (and an
`int` blend-mode field). -/
theorem c6_light_leak_modes :
    ("blendMode", CType.int) ∈ LightLeakParams.fields ∧
    ("seed", CType.uint) ∈ LightLeakParams.fields ∧
    (∀ m : LightLeakBlendMode, m ∈ allBlendModes) ∧
    allBlendModes.map LightLeakBlendMode.toCode = [0, 1, 2, 3] ∧
    (allBlendModes.map LightLeakBlendMode.toCode).Nodup ∧
    (∀ m : LightLeakBlendMode,
      LightLeakBlendMode.ofCode (LightLeakBlendMode.toCode m) = some m) ∧
    LightLeakBlendMode.ofCode 4 = none ∧
    LightLeakBlendMode.ofCode (-1) = none := by
  refine ⟨by decide, by decide, ?_, by decide, by decide, ?_, by decide, by decide⟩
  · intro m
    cases m <;> decide
  · intro m
    cases m <;> decide

/-! ## Black and white (C7) -/

/-- The six black-and-white toning modes of the header's encoding comment
(line 266): `0=none, 1=sepia, 2=selenium, 3=cyanotype, 4=splitTone,
5=custom`. -/
inductive ToningMode where
  | none : ToningMode
  | sepia : ToningMode
  | selenium : ToningMode
  | cyanotype : ToningMode
  | splitTone : ToningMode
  | custom : ToningMode
deriving DecidableEq, Repr

/-- Numeric code of a toning mode, from the comment on line 266. -/
def ToningMode.toCode : ToningMode → ℤ
  | .none => 0
  | .sepia => 1
  | .selenium => 2
  | .cyanotype => 3
  | .splitTone => 4
  | .custom => 5

/-- Decode a `toningMode` int back to a toning mode; values outside the
declared codes decode to nothing. -/
def ToningMode.ofCode (c : ℤ) : Option ToningMode :=
  if c = 0 then some .none
  else if c = 1 then some .sepia
  else if c = 2 then some .selenium
  else if c = 3 then some .cyanotype
  else if c = 4 then some .splitTone
  else if c = 5 then some .custom
  else Option.none

/-- All toning modes, in code order. -/
def allToningModes : List ToningMode :=
  [.none, .sepia, .selenium, .cyanotype, .splitTone, .custom]

/-- Claim C7: the black-and-white block provides per-channel luminance mix
weights, contrast/brightness/gamma, a toning mode ranging over exactly the
six modes none, sepia, selenium, cyanotype, split-tone, custom encoded 0
through 5 (each listed once, codes round-trip, codes outside 0..5 denote no
mode) with a toning intensity, custom and split-tone colour fields, and a
dedicated grain with intensity, size and seed. -/
theorem c7_bw_block :
    ([(("redWeight" : String), CType.float), ("greenWeight", CType.float),
      ("blueWeight", CType.float), ("contrast", CType.float),
      ("brightness", CType.float), ("gamma", CType.float),
      ("toningMode", CType.int), ("toningIntensity", CType.float),
      ("customColor", CType.float3), ("shadowHue", CType.float),
      ("shadowSat", CType.float), ("highlightHue", CType.float),
      ("highlightSat", CType.float), ("splitBalance", CType.float),
      ("grainIntensity", CType.float), ("grainSize", CType.float),
      ("grainSeed", CType.uint)].all fun f =>
        decide (f ∈ BWParams.fields)) = true ∧
    allToningModes.map ToningMode.toCode = [0, 1, 2, 3, 4, 5] ∧
    (allToningModes.map ToningMode.toCode).Nodup ∧
    (∀ m : ToningMode, m ∈ allToningModes) ∧
    (∀ m : ToningMode, ToningMode.ofCode (ToningMode.toCode m) = some m) ∧
    ToningMode.ofCode 6 = Option.none ∧
    ToningMode.ofCode (-1) = Option.none := by
  refine ⟨by decide, by decide, by decide, ?_, ?_, by decide, by decide⟩
  · intro m
    cases m <;> decide
  · intro m
    cases m <;> decide

/-! ## Snapshot count invariants (C3) -/

/-- `CurvePoint` (lines 53-56) as a value type. -/
structure CurvePoint where
  input : ℚ
  output : ℚ
deriving DecidableEq

/-- `SelectiveColorData` (lines 35-41) as a value type. -/
structure SelectiveColorData where
  hue : ℚ
  range : ℚ
  satAdj : ℚ
  lumAdj : ℚ
  hueShift : ℚ
deriving DecidableEq

/-- `RGBCurvesParams` (lines 62-70) as a value type: the three fixed
`CurvePoint[MAX_CURVE_POINTS]` arrays become functions from `Fin 8`. -/
structure RGBCurvesParams where
  redCurve : Fin MAX_CURVE_POINTS → CurvePoint
  greenCurve : Fin MAX_CURVE_POINTS → CurvePoint
  blueCurve : Fin MAX_CURVE_POINTS → CurvePoint
  redPointCount : ℤ
  greenPointCount : ℤ
  bluePointCount : ℤ
  enabled : ℤ

/-- `ColorGradingParams` (lines 73-105) as a value type: the fixed
`SelectiveColorData[8]` array becomes a function from `Fin 8`. -/
structure ColorGradingParams where
  exposure : ℚ
  contrast : ℚ
  highlights : ℚ
  shadows : ℚ
  whites : ℚ
  blacks : ℚ
  saturation : ℚ
  vibrance : ℚ
  temperature : ℚ
  tint : ℚ
  fade : ℚ
  clarity : ℚ
  shadowsHue : ℚ
  shadowsSat : ℚ
  highlightsHue : ℚ
  highlightsSat : ℚ
  splitBalance : ℚ
  midtoneProtection : ℚ
  selectiveColors : Fin selectiveColorCapacity → SelectiveColorData
  selectiveColorCount : ℤ
  lutIntensity : ℚ
  useLUT : ℤ
  rgbCurves : RGBCurvesParams

/-- Well-formedness of the curve block: each per-channel point count is a
valid occupancy of its capacity-8 array. -/
def RGBCurvesParams.WF (p : RGBCurvesParams) : Prop :=
  0 ≤ p.redPointCount ∧ p.redPointCount ≤ (MAX_CURVE_POINTS : ℤ) ∧
  0 ≤ p.greenPointCount ∧ p.greenPointCount ≤ (MAX_CURVE_POINTS : ℤ) ∧
  0 ≤ p.bluePointCount ∧ p.bluePointCount ≤ (MAX_CURVE_POINTS : ℤ)

instance : DecidablePred RGBCurvesParams.WF := fun p => by
  unfold RGBCurvesParams.WF
  infer_instance

/-- Well-formedness of the colour-grading block: the selective-colour count
is a valid occupancy of its capacity-8 array and the nested curve block is
well-formed. -/
def ColorGradingParams.WF (p : ColorGradingParams) : Prop :=
  0 ≤ p.selectiveColorCount ∧
  p.selectiveColorCount ≤ (selectiveColorCapacity : ℤ) ∧
  p.rgbCurves.WF

instance : DecidablePred ColorGradingParams.WF := fun p => by
  unfold ColorGradingParams.WF
  infer_instance

/-- Clamp a requested occupancy into `[0, cap]`.  Modelled from the spec:
the repository ships no snapshot constructor; per the spec, fixed-capacity
sequences carry "explicit length invariants enforced at construction" and
out-of-range values are clamped, never rejected. -/
def clampCount (cap : Nat) (n : ℤ) : ℤ :=
  max 0 (min n (cap : ℤ))

/-- Modelled from the spec: constructing/updating a snapshot's
colour-grading block sets the selective-colour and per-channel curve counts,
clamped to their capacities. -/
def ColorGradingParams.withCounts (p : ColorGradingParams)
    (sel r g b : ℤ) : ColorGradingParams :=
  { p with
    selectiveColorCount := clampCount selectiveColorCapacity sel,
    rgbCurves :=
      { p.rgbCurves with
        redPointCount := clampCount MAX_CURVE_POINTS r,
        greenPointCount := clampCount MAX_CURVE_POINTS g,
        bluePointCount := clampCount MAX_CURVE_POINTS b } }

/-- A consumer of the snapshot: the list of active selective-colour entries,
reading only the declared occupancy of the fixed array. -/
def ColorGradingParams.activeSelectiveColors (p : ColorGradingParams) :
    List SelectiveColorData :=
  ((List.finRange selectiveColorCapacity).take p.selectiveColorCount.toNat).map
    p.selectiveColors

/-- An all-zero curve block used by witnesses. -/
def rgbExample : RGBCurvesParams :=
  { redCurve := fun _ => ⟨0, 0⟩, greenCurve := fun _ => ⟨0, 0⟩,
    blueCurve := fun _ => ⟨0, 0⟩,
    redPointCount := 2, greenPointCount := 2, bluePointCount := 2,
    enabled := 1 }

/-- A concrete colour-grading block used by witnesses. -/
def cgExample : ColorGradingParams :=
  { exposure := 0, contrast := 0, highlights := 0, shadows := 0,
    whites := 0, blacks := 0, saturation := 0, vibrance := 0,
    temperature := 0, tint := 0, fade := 0, clarity := 0,
    shadowsHue := 0, shadowsSat := 0, highlightsHue := 0,
    highlightsSat := 0, splitBalance := 0, midtoneProtection := 0,
    selectiveColors := fun _ => ⟨0, 0, 0, 0, 0⟩,
    selectiveColorCount := 3, lutIntensity := 0, useLUT := 0,
    rgbCurves := rgbExample }

/-- Claim C3: every well-formed snapshot satisfies the fixed-capacity count
invariants — selective-colour count at most the 8-entry array capacity and
each per-channel curve count at most `MAX_CURVE_POINTS` — construction
(with clamping, as the spec prescribes) always yields a well-formed block,
and the consuming read of the selective-colour entries never exceeds the
capacity and, on well-formed blocks, reads exactly `selectiveColorCount`
entries. -/
theorem c3_count_invariants :
    (∀ p : ColorGradingParams, p.WF →
      p.selectiveColorCount ≤ (selectiveColorCapacity : ℤ) ∧
      p.rgbCurves.redPointCount ≤ (MAX_CURVE_POINTS : ℤ) ∧
      p.rgbCurves.greenPointCount ≤ (MAX_CURVE_POINTS : ℤ) ∧
      p.rgbCurves.bluePointCount ≤ (MAX_CURVE_POINTS : ℤ) ∧
      p.activeSelectiveColors.length = p.selectiveColorCount.toNat) ∧
    (∀ p : ColorGradingParams, ∀ sel r g b : ℤ,
      (p.withCounts sel r g b).WF) ∧
    (∀ p : ColorGradingParams,
      p.activeSelectiveColors.length ≤ selectiveColorCapacity) := by
  have hlen : ∀ p : ColorGradingParams,
      p.activeSelectiveColors.length =
        min p.selectiveColorCount.toNat selectiveColorCapacity := by
    intro p
    simp [ColorGradingParams.activeSelectiveColors]
  refine ⟨?_, ?_, ?_⟩
  · intro p hp
    unfold ColorGradingParams.WF RGBCurvesParams.WF at hp
    obtain ⟨h0, h8, hr0, hr8, hg0, hg8, hb0, hb8⟩ := hp
    refine ⟨h8, hr8, hg8, hb8, ?_⟩
    rw [hlen p]
    have : p.selectiveColorCount.toNat ≤ selectiveColorCapacity := by
      omega
    omega
  · intro p sel r g b
    refine ⟨?_, ?_, ?_, ?_, ?_, ?_, ?_, ?_⟩ <;>
      simp [ColorGradingParams.withCounts, RGBCurvesParams.WF, clampCount,
        le_max_iff, max_le_iff, min_le_iff, le_min_iff]
  · intro p
    rw [hlen p]
    omega

/-- Witness for C3 at a concrete well-formed colour-grading block. -/
theorem c3_count_invariants_witness :
    cgExample.selectiveColorCount ≤ (selectiveColorCapacity : ℤ) :=
  (c3_count_invariants.1 cgExample (by decide)).1

/-! ## Aspect-scale block versus the spec's data model (C8) -/

/-- Modelled from the spec: the parameter-block names that section 3 (DATA
MODEL) of the spec declares, in order of appearance.  `AspectScaleParams`
appears nowhere among them. -/
def specDataModelBlocks : List String :=
  ["SelectiveColorChannel", "CurvePoint", "ChannelCurve",
   "ColorGradingParameters", "LensDistortionParameters", "GrainParameters",
   "BloomParameters", "HalationParameters", "CCDBloomParameters",
   "VignetteParameters", "SkinToneParameters", "ToneMappingParameters",
   "FlashParameters", "LightLeakParameters", "InstantFrameParameters",
   "DateStampParameters", "BWParameters"]

/-- Claim C8: the header declares an `AspectScaleParams` block holding
exactly the input-texture and output-drawable aspect ratios (two `float`
width/height ratios), and no section of the spec's data model names an
aspect-scale block. -/
theorem c8_aspect_scale_block :
    AspectScaleParams.fields =
      [("inputAspect", CType.float), ("outputAspect", CType.float)] ∧
    ("AspectScaleParams", AspectScaleParams.fields) ∈ allParamBlocks ∧
    (specDataModelBlocks.all fun n =>
      decide (n ≠ "AspectScaleParams" ∧ n ≠ "AspectScaleParameters" ∧
        n ≠ "AspectScale")) = true := by
  refine ⟨by decide, by decide, by decide⟩

/-! ## Date stamp (C9) -/

/-- Declared capacity of `DateStampParams.digits` (line 211):
`int digits[10]`. -/
def dateStampGlyphCapacity : Nat := 10

/-- `DateStampParams` (lines 209-221) as a value type: the fixed
`int digits[10]` array becomes a function from `Fin 10`. -/
structure DateStampParams where
  enabled : ℤ
  digits : Fin dateStampGlyphCapacity → ℤ
  digitCount : ℤ
  position : ℤ
  color : ℚ × ℚ × ℚ
  opacity : ℚ
  scale : ℚ
  marginX : ℚ
  marginY : ℚ
  glowEnabled : ℤ
  glowIntensity : ℚ

/-- A valid glyph code, from the comment on line 211:
`-1 = space, 0-9, 10=quote, 11=slash, 12=dot`. -/
def validGlyphCode (c : ℤ) : Prop :=
  c = -1 ∨ (0 ≤ c ∧ c ≤ 9) ∨ c = 10 ∨ c = 11 ∨ c = 12

instance : DecidablePred validGlyphCode := fun c => by
  unfold validGlyphCode
  infer_instance

/-- A glyph code that denotes one of the ten digits. -/
def isDigitGlyph (c : ℤ) : Prop := 0 ≤ c ∧ c ≤ 9

instance : DecidablePred isDigitGlyph := fun c => by
  unfold isDigitGlyph
  infer_instance

/-- Well-formedness of a date-stamp block: the active-glyph count fits the
10-entry array, every active entry is a valid glyph code, and the position
anchor is one of the four declared values (line 213:
`0=bottomRight, 1=bottomLeft, 2=topRight, 3=topLeft`). -/
def DateStampParams.WF (d : DateStampParams) : Prop :=
  0 ≤ d.digitCount ∧ d.digitCount ≤ (dateStampGlyphCapacity : ℤ) ∧
  (∀ i : Fin dateStampGlyphCapacity,
    (i : Nat) < d.digitCount.toNat → validGlyphCode (d.digits i)) ∧
  (d.position = 0 ∨ d.position = 1 ∨ d.position = 2 ∨ d.position = 3)

instance : DecidablePred DateStampParams.WF := fun d => by
  unfold DateStampParams.WF
  infer_instance

/-- Encode one character of a date string as a glyph code, following the
code table in the comment on line 211, by codepoint: 32 is space, 48-57 are
the digits, 39 the quote, 47 the slash, 46 the dot. -/
def encodeGlyph (c : Char) : Option ℤ :=
  if c.toNat = 32 then some (-1)
  else if 48 ≤ c.toNat ∧ c.toNat ≤ 57 then some ((c.toNat : ℤ) - 48)
  else if c.toNat = 39 then some 10
  else if c.toNat = 47 then some 11
  else if c.toNat = 46 then some 12
  else none

/-- A concrete date stamp ("12.10.26" in glyph codes) used by witnesses. -/
def dateStampExample : DateStampParams :=
  { enabled := 1,
    digits := fun i => [1, 2, 12, 1, 0, 12, 2, 6, -1, -1].getD (i : Nat) (-1),
    digitCount := 8, position := 0, color := (1, 1, 1), opacity := 1,
    scale := 1, marginX := 0, marginY := 0, glowEnabled := 1,
    glowIntensity := 1 }

/-- Claim C9: in every well-formed date-stamp block the glyph array holds at
most 10 active entries (`digitCount ≤ 10`, the declared array capacity),
every active entry is drawn from the code set `{-1, 0..9, 10, 11, 12}`, and
the position anchor is one of 0, 1, 2, 3; every code the glyph encoder can
produce is in that set; and the set properly extends the digit codes —
space, quote, slash and dot are encodable non-digits. -/
theorem c9_date_stamp_invariants :
    (∀ d : DateStampParams, d.WF →
      d.digitCount ≤ (dateStampGlyphCapacity : ℤ) ∧
      (∀ i : Fin dateStampGlyphCapacity,
        (i : Nat) < d.digitCount.toNat → validGlyphCode (d.digits i)) ∧
      (d.position = 0 ∨ d.position = 1 ∨ d.position = 2 ∨ d.position = 3)) ∧
    (∀ c : Char, ∀ g : ℤ, encodeGlyph c = some g → validGlyphCode g) ∧
    (validGlyphCode (-1) ∧ validGlyphCode 10 ∧ validGlyphCode 11 ∧
      validGlyphCode 12) ∧
    (¬ isDigitGlyph (-1) ∧ ¬ isDigitGlyph 10 ∧ ¬ isDigitGlyph 11 ∧
      ¬ isDigitGlyph 12) ∧
    ("digits", CType.array CType.int dateStampGlyphCapacity) ∈
      DateStampParams.fields := by
  refine ⟨?_, ?_, by decide, by decide, by decide⟩
  · intro d hd
    unfold DateStampParams.WF at hd
    exact ⟨hd.2.1, hd.2.2.1, hd.2.2.2⟩
  · intro c g h
    unfold encodeGlyph at h
    split_ifs at h <;> (try injection h with h) <;> (try subst h) <;>
      first
      | decide
      | (unfold validGlyphCode; omega)

/-- Witness for C9 at a concrete well-formed date-stamp block and a
concrete encodable character. -/
theorem c9_date_stamp_invariants_witness :
    dateStampExample.digitCount ≤ (dateStampGlyphCapacity : ℤ) ∧
    validGlyphCode 11 :=
  ⟨(c9_date_stamp_invariants.1 dateStampExample (by decide)).1,
    c9_date_stamp_invariants.2.1 '/' 11 (by decide)⟩

/-! ## Image-size dependence (C10) -/

/-- `AspectScaleParams` (lines 174-177) as a value type. -/
structure AspectScaleParams where
  inputAspect : ℚ
  outputAspect : ℚ
deriving DecidableEq

/-- The aspect-scale block a caller builds for an input image of the given
pixel dimensions, per the header's field doc (line 175: input texture
aspect ratio = width/height), at a fixed output-drawable aspect. -/
def AspectScaleParams.forImage (w h : Nat) (outAspect : ℚ) :
    AspectScaleParams :=
  ⟨(w : ℚ) / (h : ℚ), outAspect⟩

/-- The claim that the aspect-scale block can be reused unchanged across
every pair of input images of different sizes. -/
def aspectBlockSizeInvariant : Prop :=
  ∀ w₁ h₁ w₂ h₂ : Nat, ∀ o : ℚ, (w₁, h₁) ≠ (w₂, h₂) →
    AspectScaleParams.forImage w₁ h₁ o = AspectScaleParams.forImage w₂ h₂ o

/-- Claim C10 as stated is false: `AspectScaleParams` is a parameter block
of the header other than `CCDBloomParams`, yet it cannot be reused
unchanged across input images of different sizes — a 100×100 input gives
`inputAspect = 1` while a 200×100 input gives `inputAspect = 2`. -/
theorem c10_counterexample :
    ("AspectScaleParams", AspectScaleParams.fields) ∈ allParamBlocks ∧
    AspectScaleParams.forImage 100 100 1 ≠ AspectScaleParams.forImage 200 100 1 ∧
    ¬ aspectBlockSizeInvariant := by
  have hne : AspectScaleParams.forImage 100 100 1 ≠
      AspectScaleParams.forImage 200 100 1 := by
    intro heq
    have h2 := congrArg AspectScaleParams.inputAspect heq
    simp only [AspectScaleParams.forImage] at h2
    norm_num at h2
  refine ⟨by decide, hne, ?_⟩
  intro hinv
  exact hne (hinv 100 100 200 100 1 (by decide))

/-- Claim C10 (amended): `CCDBloomParams` is the only block in the header
embedding the image pixel dimensions (a field named `imageSize`), and
`AspectScaleParams` is the only block carrying the input texture's aspect
ratio; every other block has neither.  The aspect-scale block is genuinely
resolution-independent — uniformly scaling an image's dimensions leaves it
unchanged — but it does change across images of different aspect. -/
theorem c10_image_size_dependence :
    (∀ b ∈ allParamBlocks,
      "imageSize" ∈ b.2.map Prod.fst → b.1 = "CCDBloomParams") ∧
    (∀ b ∈ allParamBlocks,
      "inputAspect" ∈ b.2.map Prod.fst → b.1 = "AspectScaleParams") ∧
    (∀ k w h : Nat, ∀ o : ℚ, k ≠ 0 →
      AspectScaleParams.forImage (k * w) (k * h) o =
        AspectScaleParams.forImage w h o) := by
  refine ⟨by decide, by decide, ?_⟩
  intro k w h o hk
  have hkq : (k : ℚ) ≠ 0 := Nat.cast_ne_zero.mpr hk
  have hq : ((k * w : Nat) : ℚ) / ((k * h : Nat) : ℚ) = (w : ℚ) / (h : ℚ) := by
    push_cast
    exact mul_div_mul_left (w : ℚ) (h : ℚ) hkq
  unfold AspectScaleParams.forImage
  rw [hq]

/-- Witness for C10 at concrete dimensions: doubling a 4×3 image leaves the
aspect-scale block unchanged. -/
theorem c10_image_size_dependence_witness :
    AspectScaleParams.forImage (2 * 4) (2 * 3) 1 =
      AspectScaleParams.forImage 4 3 1 :=
  c10_image_size_dependence.2.2 2 4 3 1 (by decide)
